import Mathlib

/-
Verification development for the epi-statlab-hub statistical calculators.

The repository is a catalog of pure functions mapping small numeric records
to formatted result records:
  * `calculators/chiSquare.ts` — chi-square test on a 2x2 table;
  * `epiMeasures` — relative risk and odds ratio from a 2x2 table;
  * `ciEpi` — the combined Epi 2x2 CI toolkit (odds ratio with Woolf and
    "exact-like" intervals, Katz RR interval, risk difference);
  * a variant pair `riskRatioCalc`/`oddsRatioCalc` whose declared input type
    has fields Exposed_cases/… while the compute body reads a/b/c/d.

JavaScript numbers are embedded as follows.  Code paths that only use
field arithmetic on validated finite inputs are embedded over `ℚ`
(exact arithmetic; the spec's claims are about the exact closed-form
formulas).  Code paths where the IEEE special values Infinity / -Infinity /
NaN / undefined are observable are embedded over the symbolic type `JSNum`
(finite payloads in `ℚ`) resp. `JSR` (finite payloads in `ℝ`, for the
`ciEpi` toolkit which uses `Math.sqrt`/`Math.exp`/`Math.log`).  Signed zero
is not modelled: every input reaching these code paths is validated
non-negative, and no computation here distinguishes +0 from -0.

External collaborators that are part of the repository but outside the
sources (the distribution utility `ciUtils` and the RR/OR formula helpers)
are abstracted as function parameters; where a claim depends on their
behaviour, the spec's stated contract (section 4.1) is used as the
hypothesis (e.g. `zCritical` returns a positive real).
-/

/-- Value of a result-record entry: the TypeScript `value` field holds either
a string or a number (`chiSquare` puts the number `1` for degrees of freedom). -/
inductive EntryVal where
  | str (s : String)
  | num (q : ℚ)
deriving DecidableEq

/-- One labelled entry of a calculator's result list:
`{ label: text, value: text|number, isMain?: boolean }`.
The optional TypeScript field `isMain` is embedded as a `Bool`
(absent = `false`). -/
structure ResultEntry where
  label : String
  value : EntryVal
  isMain : Bool
deriving DecidableEq

/-- A calculator's return record: ordered results, an interpretation sentence,
and the optional `rCode` and `formula` display strings. -/
structure ResultRecord where
  results : List ResultEntry
  interpretation : String
  rCode : Option String
  formula : Option String
deriving DecidableEq

/-- Decimal rendering of a non-negative scaled integer `m` as `m / 10^d`
with exactly `d` fraction digits (helper for `qToFixed`). -/
def scaledDecimalString (m : ℕ) (d : ℕ) : String :=
  let ip := m / 10 ^ d
  let fp := m % 10 ^ d
  let fpStr := toString fp
  let padded := String.mk (List.replicate (d - fpStr.length) '0') ++ fpStr
  if d = 0 then toString ip else toString ip ++ "." ++ padded

/-- Model of JavaScript `Number.prototype.toFixed(d)` on a finite value,
with the finite value idealised as an exact rational: the sign is split off
and the magnitude is rounded to the integer `n` with `n/10^d` closest to it,
ties picking the larger `n` (ECMA-262 Number.prototype.toFixed).  The doubles
actually reaching `toFixed` in this repository are not ties. -/
def qToFixed (q : ℚ) (d : ℕ) : String :=
  if q < 0 then "-" ++ scaledDecimalString ⌊(-q) * 10 ^ d + 1 / 2⌋.toNat d
  else scaledDecimalString ⌊q * 10 ^ d + 1 / 2⌋.toNat d

/-- Model of `formatP` from `calculators/chiSquare.ts` line 39:
`(p) => p < 0.001 ? "< 0.001" : p.toFixed(4)`. -/
def formatP (p : ℚ) : String :=
  if p < 1 / 1000 then "< 0.001" else qToFixed p 4

/-- Yates-corrected numerator of the chi-square statistic,
`calculators/chiSquare.ts` lines 34–35:
`numerator = Math.abs(a*d - b*c)`;
`correctedNum = yates ? Math.max(0, numerator - n/2) : numerator`
with `n = a + b + c + d`. -/
def chiSquare_correctedNum (a b c d : ℚ) (yates : Bool) : ℚ :=
  let n := a + b + c + d
  let numerator := |a * d - b * c|
  if yates then max 0 (numerator - n / 2) else numerator

/-- Chi-square statistic, `calculators/chiSquare.ts` line 36:
`chi2 = (n * Math.pow(correctedNum, 2)) / (row1 * row2 * col1 * col2)`. -/
def chiSquare_chi2 (a b c d : ℚ) (yates : Bool) : ℚ :=
  let n := a + b + c + d
  n * chiSquare_correctedNum a b c d yates ^ 2 / ((a + b) * (c + d) * (a + c) * (b + d))

/-- R snippet template built by `calculators/chiSquare.ts` line 41 (numbers
are interpolated with `toString`; integer inputs render as in JavaScript). -/
def chiSquare_rCode (a b c d : ℚ) (yates : Bool) : String :=
  "# Create matrix table\ntab <- matrix(c(" ++ toString a ++ ", " ++ toString c ++
  ", " ++ toString b ++ ", " ++ toString d ++ "), nrow = 2)\ncolnames(tab) <- c(\"Exposure+\", \"Exposure-\")\nrownames(tab) <- c(\"Outcome+\", \"Outcome-\")\n\n# Chi-Square Test\nchisq.test(tab, correct = " ++
  (if yates then "TRUE" else "FALSE") ++
  ")\n\n# Fisher's Exact Test (Recommended for small cells)\nfisher.test(tab)"

/-- Embedding of `chiSquare.compute` from `calculators/chiSquare.ts`
lines 22–54.  The external `ciUtils.getChiSqPValue` (distribution utility,
not among the sources) is abstracted as the parameter `getChiSqPValue`. -/
def chiSquare_compute (getChiSqPValue : ℚ → ℚ → ℚ)
    (a b c d : ℚ) (yates : Bool) : ResultRecord :=
  let row1 := a + b
  let row2 := c + d
  let col1 := a + c
  let col2 := b + d
  if row1 = 0 ∨ row2 = 0 ∨ col1 = 0 ∨ col2 = 0 then
    { results := [],
      interpretation := "Table contains a row or column with zero totals.",
      rCode := none, formula := none }
  else
    let chi2 := chiSquare_chi2 a b c d yates
    let pValue := getChiSqPValue chi2 1
    { results :=
        [⟨"Chi-Square (χ²)", .str (qToFixed chi2 4), true⟩,
         ⟨"p-value", .str (formatP pValue), true⟩,
         ⟨"Degrees of Freedom", .num 1, false⟩,
         ⟨"Yates Correction", .str (if yates then "Applied" else "Not Applied"), false⟩],
      interpretation := "The Chi-square value is " ++ qToFixed chi2 3 ++
        " (p = " ++ formatP pValue ++ ").",
      rCode := some (chiSquare_rCode a b c d yates),
      formula := some "χ² = n(|ad-bc| - c)² / (R1*R2*C1*C2)" }

/-- Sample p-value function used only to instantiate witnesses (the
distribution-utility contract says only that the result is a probability). -/
def pfunSample : ℚ → ℚ → ℚ := fun _ _ => 1 / 2

/-- Symbolic model of a JavaScript number as observed by the epi calculators:
a finite value (idealised as an exact rational), `Infinity`, `-Infinity`,
`NaN`, or the non-number `undefined` (produced by reading an absent field).
Signed zero is not modelled (all validated inputs are non-negative). -/
inductive JSNum where
  | fin (q : ℚ)
  | inf
  | negInf
  | nan
  | undef
deriving DecidableEq

/-- ToNumber coercion applied by JavaScript arithmetic: `undefined` becomes
`NaN`; every number is unchanged. -/
def JSNum.toNum : JSNum → JSNum
  | .undef => .nan
  | x => x

/-- JavaScript `+` on the modelled values (IEEE-754 addition on the symbolic
special values, exact addition on finite payloads). -/
def JSNum.add (x y : JSNum) : JSNum :=
  match x.toNum, y.toNum with
  | .fin p, .fin q => .fin (p + q)
  | .fin _, .inf => .inf
  | .inf, .fin _ => .inf
  | .fin _, .negInf => .negInf
  | .negInf, .fin _ => .negInf
  | .inf, .inf => .inf
  | .negInf, .negInf => .negInf
  | _, _ => .nan

/-- JavaScript `/` on the modelled values: division by zero yields
`Infinity`, `-Infinity` or `NaN` according to the numerator's sign; a finite
value divided by an infinity yields `0`; `NaN` propagates. -/
def JSNum.div (x y : JSNum) : JSNum :=
  match x.toNum, y.toNum with
  | .fin p, .fin q =>
      if q ≠ 0 then .fin (p / q)
      else if 0 < p then .inf
      else if p < 0 then .negInf
      else .nan
  | .fin _, .inf => .fin 0
  | .fin _, .negInf => .fin 0
  | .inf, .fin q => if 0 ≤ q then .inf else .negInf
  | .negInf, .fin q => if 0 ≤ q then .negInf else .inf
  | _, _ => .nan

/-- JavaScript `Number.prototype.toFixed` on the modelled values:
`"NaN"` for `NaN`, `"Infinity"`/`"-Infinity"` for the infinities
(ECMA-262: non-finite numbers fall back to `ToString`), and the exact
decimal rounding for finite values.  (`toFixed` is never reached on
`undefined` in the embedded code; arithmetic coerces it to `NaN` first.) -/
def JSNum.toFixed (x : JSNum) (d : ℕ) : String :=
  match x with
  | .fin q => qToFixed q d
  | .inf => "Infinity"
  | .negInf => "-Infinity"
  | .nan => "NaN"
  | .undef => "NaN"

/-- JavaScript `ToString` of a modelled value, as used by template-literal
interpolation (`undefined` interpolates as the text `undefined`). -/
def JSNum.display : JSNum → String
  | .fin q => toString q
  | .inf => "Infinity"
  | .negInf => "-Infinity"
  | .nan => "NaN"
  | .undef => "undefined"

/-- JavaScript comparison `x > 1` on a modelled value (`NaN` and `undefined`
compare false). -/
def JSNum.gtOne : JSNum → Bool
  | .fin q => decide (1 < q)
  | .inf => true
  | _ => false

/-- Relative risk computed by `epiMeasures.compute` (part_000 lines 88–90):
`n1 = a + b; n2 = c + d; r1 = a / n1; r2 = c / n2; rr = r1 / r2`. -/
def epiMeasures_rr (a b c d : ℚ) : JSNum :=
  (JSNum.div (.fin a) (.fin (a + b))).div (JSNum.div (.fin c) (.fin (c + d)))

/-- Odds ratio computed by `epiMeasures.compute` (part_000 line 90):
`or = (a * d) / (b * c)`. -/
def epiMeasures_or (a b c d : ℚ) : JSNum :=
  JSNum.div (.fin (a * d)) (.fin (b * c))

/-- R snippet template built by `epiMeasures.compute` (part_000 line 92). -/
def epiMeasures_rCode (a b c d : ℚ) : String :=
  "# Create 2x2 table matrix\ntab <- matrix(c(" ++ toString a ++ ", " ++ toString c ++
  ", " ++ toString b ++ ", " ++ toString d ++
  "), nrow = 2)\ndimnames(tab) <- list(Disease = c(\"Yes\", \"No\"), Exposure = c(\"Yes\", \"No\"))\n\n# Association Tests\nchisq.test(tab)\nfisher.test(tab)\n\n# For Relative Risk and Odds Ratio (Requires 'epiR' package)\n# install.packages(\"epiR\")\nlibrary(epiR)\nepi.2by2(tab, method = \"cohort.count\")"

/-- Embedding of `epiMeasures.compute` (part_000 lines 86–103). -/
def epiMeasures_compute (a b c d : ℚ) : ResultRecord :=
  let rr := epiMeasures_rr a b c d
  let or := epiMeasures_or a b c d
  { results :=
      [⟨"Relative Risk (RR)", .str (rr.toFixed 3), true⟩,
       ⟨"Odds Ratio (OR)", .str (or.toFixed 3), true⟩],
    interpretation := "RR is " ++ rr.toFixed 2 ++ ", OR is " ++ or.toFixed 2 ++ ".",
    rCode := some (epiMeasures_rCode a b c d),
    formula := some "RR = [a/(a+b)] / [c/(c+d)]\nOR = (a*d) / (b*c)" }

/-- Declared input record of the part_001 variant calculators: the
TypeScript type parameter is
`{ Exposed_cases, Unexposed_cases, Exposed_control, Unexposed_control }`
(all numbers); the compute bodies nevertheless read `data.a` … `data.d`,
which do not exist on this type. -/
structure EpiNamedInput where
  Exposed_cases : ℚ
  Unexposed_cases : ℚ
  Exposed_control : ℚ
  Unexposed_control : ℚ

/-- Return shape of the external formula helpers `computeRR`/`computeOR`
(`./utils`, not among the sources): a point value with interval bounds,
consumed as `res.value`, `res.lower`, `res.upper`. -/
structure FormulaRes where
  value : JSNum
  lower : JSNum
  upper : JSNum

/-- R snippet template of the part_001 `riskRatioCalc.compute` (line 21);
`${data.a}` … interpolate the absent fields, which JavaScript renders as
the text `undefined`. -/
def riskRatioCalc_rCode (a b c d : JSNum) : String :=
  "# Create 2x2 matrix\ntab <- matrix(c(" ++ a.display ++ ", " ++ c.display ++
  ", " ++ b.display ++ ", " ++ d.display ++
  "), nrow = 2)\n\n# install.packages(\"epiR\")\nlibrary(epiR)\nepi.2by2(tab, method = \"cohort.count\", conf.level = 0.95)"

/-- Embedding of the part_001 `riskRatioCalc.compute` (lines 19–34).
The external helpers `computeRR` (formula module) and
`formatPercent`/`formatCI` (formatting utilities), none of which are among
the sources, are abstracted as parameters.  The reads `data.a` … `data.d`
hit fields absent from the declared input type `EpiNamedInput`, so each
yields the JavaScript value `undefined`. -/
def riskRatioCalc_compute (computeRR : EpiNamedInput → FormulaRes)
    (formatPercent : JSNum → String) (formatCI : JSNum → JSNum → ℕ → String)
    (data : EpiNamedInput) : ResultRecord :=
  let a : JSNum := .undef
  let b : JSNum := .undef
  let c : JSNum := .undef
  let d : JSNum := .undef
  let res := computeRR data
  { results :=
      [⟨"Risk Ratio (RR)", .str (res.value.toFixed 3), true⟩,
       ⟨"95% CI (Log Method)", .str (formatCI res.lower res.upper 3), true⟩,
       ⟨"Exposed Risk", .str (formatPercent (a.div (a.add b))), false⟩,
       ⟨"Unexposed Risk", .str (formatPercent (c.div (c.add d))), false⟩],
    interpretation := "Exposed group has " ++
      (if res.value.gtOne then "higher" else "lower") ++
      " risk (RR=" ++ res.value.toFixed 2 ++ ").",
    rCode := some (riskRatioCalc_rCode a b c d),
    formula := some "RR = [a / (a+b)] / [c / (c+d)]" }

/-- R snippet template of the part_001 `oddsRatioCalc.compute` (line 52). -/
def oddsRatioCalc_rCode (a b c d : JSNum) : String :=
  "# Odds Ratio via Fisher Test\ntab <- matrix(c(" ++ a.display ++ ", " ++ c.display ++
  ", " ++ b.display ++ ", " ++ d.display ++
  "), nrow = 2)\nfisher.test(tab, conf.level = 0.95)\n\n# Woolf method via 'epiR'\n# library(epiR); epi.2by2(tab, method = \"case-control\")"

/-- Embedding of the part_001 `oddsRatioCalc.compute` (lines 50–65), with
the external `computeOR` and `formatCI` abstracted as parameters; the reads
`data.a` … `data.d` again yield `undefined`. -/
def oddsRatioCalc_compute (computeOR : EpiNamedInput → FormulaRes)
    (formatCI : JSNum → JSNum → ℕ → String)
    (data : EpiNamedInput) : ResultRecord :=
  let a : JSNum := .undef
  let b : JSNum := .undef
  let c : JSNum := .undef
  let d : JSNum := .undef
  let res := computeOR data
  { results :=
      [⟨"Odds Ratio (OR)", .str (res.value.toFixed 3), true⟩,
       ⟨"95% CI (Woolf)", .str (formatCI res.lower res.upper 3), true⟩,
       ⟨"Exposed Odds", .str ((a.div b).toFixed 3), false⟩,
       ⟨"Unexposed Odds", .str ((c.div d).toFixed 3), false⟩],
    interpretation := "The odds ratio is " ++ res.value.toFixed 3 ++ ".",
    rCode := some (oddsRatioCalc_rCode a b c d),
    formula := some "OR = (a * d) / (b * c)" }

/-- Symbolic model of a JavaScript number for the `ciEpi` toolkit, whose
finite values involve `Math.sqrt`/`Math.exp`/`Math.log`: a finite real
payload or one of the special values (no `undefined` arises there). -/
inductive JSR where
  | fin (x : ℝ)
  | inf
  | negInf
  | nan

/-- Return record of the external distribution utility `getTPValue`
(spec section 4.1): `tPValue(statistic, degreesOfFreedom) -> {twoSided}`. -/
structure TPRes where
  twoSided : ℝ

open Classical in
/-- Odds-ratio point estimate of `ciEpi.compute` (part_000 line 139):
`orPoint = (b !== 0 && c !== 0) ? (a * d) / (b * c) : Infinity`. -/
noncomputable def ciEpi_orPoint (a b c d : ℝ) : JSR :=
  if b ≠ 0 ∧ c ≠ 0 then .fin ((a * d) / (b * c)) else .inf

/-- Continuity-corrected odds ratio of `ciEpi.compute` (part_000
lines 141–142): `ac = a + 0.5` … ; `orCorrected = (ac * dc) / (bc * cc)`. -/
noncomputable def ciEpi_orCorrected (a b c d : ℝ) : ℝ :=
  ((a + 0.5) * (d + 0.5)) / ((b + 0.5) * (c + 0.5))

/-- Woolf log-scale standard error of `ciEpi.compute` (part_000 line 143):
`seLogOrWoolf = Math.sqrt(1/ac + 1/bc + 1/cc + 1/dc)`. -/
noncomputable def ciEpi_seLogOrWoolf (a b c d : ℝ) : ℝ :=
  Real.sqrt (1 / (a + 0.5) + 1 / (b + 0.5) + 1 / (c + 0.5) + 1 / (d + 0.5))

/-- Woolf interval lower bound of `ciEpi.compute` (part_000 line 144):
`woolfLower = Math.exp(Math.log(orCorrected) - zCrit * seLogOrWoolf)`.
`zCrit = ciUtils.getZCritical(conf)` is external; it is abstracted as the
parameter `z`. -/
noncomputable def ciEpi_woolfLower (a b c d z : ℝ) : ℝ :=
  Real.exp (Real.log (ciEpi_orCorrected a b c d) - z * ciEpi_seLogOrWoolf a b c d)

/-- Woolf interval upper bound of `ciEpi.compute` (part_000 line 145):
`woolfUpper = Math.exp(Math.log(orCorrected) + zCrit * seLogOrWoolf)`. -/
noncomputable def ciEpi_woolfUpper (a b c d z : ℝ) : ℝ :=
  Real.exp (Real.log (ciEpi_orCorrected a b c d) + z * ciEpi_seLogOrWoolf a b c d)

/-- Exact-interval log-scale standard error of `ciEpi.compute` (part_000
line 150): `seExact = Math.sqrt(1/a + 1/b + 1/c + 1/d)` (only used in the
all-cells-nonzero branch). -/
noncomputable def ciEpi_seExact (a b c d : ℝ) : ℝ :=
  Real.sqrt (1 / a + 1 / b + 1 / c + 1 / d)

open Classical in
/-- Lower bound of the "exact-like" OR interval of `ciEpi.compute`
(part_000 lines 148–156): the formula `orPoint / Math.exp(zCrit * seExact)`
when `a !== 0 && d !== 0 && b !== 0 && c !== 0` (where
`orPoint = (a*d)/(b*c)` since `b` and `c` are nonzero), else the Woolf
lower bound. -/
noncomputable def ciEpi_exactLower (a b c d z : ℝ) : ℝ :=
  if a ≠ 0 ∧ d ≠ 0 ∧ b ≠ 0 ∧ c ≠ 0 then
    ((a * d) / (b * c)) / Real.exp (z * ciEpi_seExact a b c d)
  else ciEpi_woolfLower a b c d z

open Classical in
/-- Upper bound of the "exact-like" OR interval of `ciEpi.compute`
(part_000 lines 148–156): `orPoint * Math.exp(zCrit * seExact)` in the
all-cells-nonzero branch, else the Woolf upper bound. -/
noncomputable def ciEpi_exactUpper (a b c d z : ℝ) : ℝ :=
  if a ≠ 0 ∧ d ≠ 0 ∧ b ≠ 0 ∧ c ≠ 0 then
    ((a * d) / (b * c)) * Real.exp (z * ciEpi_seExact a b c d)
  else ciEpi_woolfUpper a b c d z

/-- Exposed risk of `ciEpi.compute` (part_000 line 158):
`r1 = a / (a + b) || 0`.  The `|| 0` turns the `NaN` produced by `0/0`
into `0`; Lean's convention `x / 0 = 0` renders the same value for the
non-negative validated inputs, so the guard is absorbed. -/
noncomputable def ciEpi_r1 (a b : ℝ) : ℝ := a / (a + b)

/-- Unexposed risk of `ciEpi.compute` (part_000 line 159):
`r2 = c / (c + d) || 0` (same remark as for `ciEpi_r1`). -/
noncomputable def ciEpi_r2 (c d : ℝ) : ℝ := c / (c + d)

open Classical in
/-- Relative risk of `ciEpi.compute` (part_000 line 160):
`rr = r2 === 0 ? (r1 > 0 ? Infinity : 1) : r1 / r2`. -/
noncomputable def ciEpi_rr (a b c d : ℝ) : JSR :=
  if ciEpi_r2 c d = 0 then (if 0 < ciEpi_r1 a b then .inf else .fin 1)
  else .fin (ciEpi_r1 a b / ciEpi_r2 c d)

/-- Katz log-scale standard error of `ciEpi.compute` (part_000 line 161):
`rrSELog = Math.sqrt((1/ac - 1/(ac+bc)) + (1/cc - 1/(cc+dc)))`. -/
noncomputable def ciEpi_rrSELog (a b c d : ℝ) : ℝ :=
  Real.sqrt ((1 / (a + 0.5) - 1 / ((a + 0.5) + (b + 0.5))) +
    (1 / (c + 0.5) - 1 / ((c + 0.5) + (d + 0.5))))

open Classical in
/-- Katz interval lower bound of `ciEpi.compute` (part_000 line 162):
`rrLower = rr > 0 && isFinite(rr) ? Math.exp(Math.log(rr) - zCrit * rrSELog) : 0`
(`rr > 0` is false on `NaN`, and `isFinite` is false on the infinities). -/
noncomputable def ciEpi_rrLower (a b c d z : ℝ) : ℝ :=
  match ciEpi_rr a b c d with
  | .fin x => if 0 < x then Real.exp (Real.log x - z * ciEpi_rrSELog a b c d) else 0
  | _ => 0

open Classical in
/-- Katz interval upper bound of `ciEpi.compute` (part_000 line 163):
`rrUpper = rr > 0 && isFinite(rr) ? Math.exp(Math.log(rr) + zCrit * rrSELog)
: (rr > 0 ? Infinity : 0)`. -/
noncomputable def ciEpi_rrUpper (a b c d z : ℝ) : JSR :=
  match ciEpi_rr a b c d with
  | .fin x => if 0 < x then .fin (Real.exp (Real.log x + z * ciEpi_rrSELog a b c d)) else .fin 0
  | .inf => .inf
  | .negInf => .fin 0
  | .nan => .fin 0

open Classical in
/-- The log-scale p-value helper `getLogP` of `ciEpi.compute` (part_000
lines 133–137):
`if (est <= 0 || !isFinite(est)) return 1;`
`const zStat = Math.abs(Math.log(est)) / seLog;`
`return ciUtils.getTPValue(zStat, 1000).twoSided;`
(on the special values: `-Infinity <= 0` is true and `isFinite` is false on
`NaN` and the infinities, so every non-finite argument returns `1`).  The
external distribution utility `getTPValue` is abstracted as the parameter
`tP`. -/
noncomputable def ciEpi_getLogP (tP : ℝ → ℝ → TPRes) (est : JSR) (seLog : ℝ) : ℝ :=
  match est with
  | .fin x => if x ≤ 0 then 1 else (tP (|Real.log x| / seLog) 1000).twoSided
  | _ => 1

/-- The finite-value formatter `f` of `ciEpi.compute` (part_000 line 172):
`f = (n) => isFinite(n) ? n.toFixed(4) : "∞"`.  Rendering a finite double
(`toFixed(4)`) is abstracted as the parameter `render`; every non-finite
value renders as `"∞"`. -/
def ciEpi_f (render : ℝ → String) : JSR → String
  | .fin v => render v
  | _ => "∞"

/-- Sample `getTPValue` used only to instantiate witnesses. -/
noncomputable def tPSample : ℝ → ℝ → TPRes := fun _ _ => ⟨1 / 2⟩

/-- Sample finite-value renderer used only to instantiate witnesses. -/
def renderSample : ℝ → String := fun _ => ""

/-- Claim C1: for every input with non-negative counts and all row and column
sums positive, `chiSquare.compute` returns the statistic
`χ² = n * numerator² / (R1*R2*C1*C2)` with `numerator = |a*d - b*c|`, reduced
by `n/2` and clamped at `0` before squaring when `yates` is set; in
particular for `a=10, b=20, c=30, d=40, yates=true` the statistic equals
`2250000/5040000` and is displayed as `"0.4464"`. -/
theorem chiSquare_statistic_formula :
    (∀ (pfun : ℚ → ℚ → ℚ) (a b c d : ℚ) (yates : Bool),
        0 ≤ a → 0 ≤ b → 0 ≤ c → 0 ≤ d →
        0 < a + b → 0 < c + d → 0 < a + c → 0 < b + d →
        chiSquare_chi2 a b c d yates =
          (a + b + c + d) *
            (if yates then max 0 (|a * d - b * c| - (a + b + c + d) / 2)
             else |a * d - b * c|) ^ 2 /
            ((a + b) * (c + d) * (a + c) * (b + d)) ∧
        (chiSquare_compute pfun a b c d yates).results.get? 0 =
          some ⟨"Chi-Square (χ²)", .str (qToFixed (chiSquare_chi2 a b c d yates) 4), true⟩) ∧
    chiSquare_chi2 10 20 30 40 true = 2250000 / 5040000 ∧
    qToFixed (2250000 / 5040000 : ℚ) 4 = "0.4464" := by
  refine ⟨fun pfun a b c d yates ha hb hc hd h1 h2 h3 h4 => ⟨rfl, ?_⟩, ?_, ?_⟩
  · simp only [chiSquare_compute]
    rw [if_neg (by push_neg; exact ⟨h1.ne', h2.ne', h3.ne', h4.ne'⟩)]
    rfl
  · have habs : |(10 * 40 - 20 * 30 : ℚ)| = 200 := by
      rw [abs_of_nonpos (by norm_num)]; norm_num
    simp only [chiSquare_chi2, chiSquare_correctedNum, if_true]
    rw [habs]
    norm_num
  · have h1 : ((2250000 : ℚ) / 5040000) = 25 / 56 := by norm_num
    rw [h1, qToFixed, if_neg (by norm_num)]
    have h2 : ⌊(25 / 56 : ℚ) * 10 ^ 4 + 1 / 2⌋ = 4464 := by
      rw [Int.floor_eq_iff]
      norm_num
    rw [h2]
    decide

/-- Witness for C1 at the example input `a=10, b=20, c=30, d=40, yates=true`. -/
theorem chiSquare_statistic_formula_witness :
    (0 : ℚ) < 10 + 20 ∧
    (chiSquare_compute pfunSample 10 20 30 40 true).results.get? 0 =
      some ⟨"Chi-Square (χ²)", .str (qToFixed (chiSquare_chi2 10 20 30 40 true) 4), true⟩ :=
  ⟨by norm_num,
   (chiSquare_statistic_formula.1 pfunSample 10 20 30 40 true (by norm_num) (by norm_num)
      (by norm_num) (by norm_num) (by norm_num) (by norm_num) (by norm_num) (by norm_num)).2⟩

/-- Claim C2: whenever some row or column sum of the table is zero,
`chiSquare.compute` short-circuits to the empty-results record (with the
explanatory interpretation) before any division and independently of the
p-value utility. -/
theorem chiSquare_zeroMargin_empty :
    ∀ (pfun : ℚ → ℚ → ℚ) (a b c d : ℚ) (yates : Bool),
      a + b = 0 ∨ c + d = 0 ∨ a + c = 0 ∨ b + d = 0 →
      chiSquare_compute pfun a b c d yates =
        { results := [],
          interpretation := "Table contains a row or column with zero totals.",
          rCode := none, formula := none } := by
  intro pfun a b c d yates h
  simp only [chiSquare_compute]
  rw [if_pos h]

/-- Witness for C2 at the zero-row input `a=0, b=0, c=5, d=5`. -/
theorem chiSquare_zeroMargin_empty_witness :
    chiSquare_compute pfunSample 0 0 5 5 false =
      { results := [],
        interpretation := "Table contains a row or column with zero totals.",
        rCode := none, formula := none } :=
  chiSquare_zeroMargin_empty pfunSample 0 0 5 5 false (Or.inl (by norm_num))

/-- Claim C7: for non-negative counts the Yates-corrected numerator
`max(0, |a*d - b*c| - n/2)` is at most the uncorrected numerator
`|a*d - b*c|` and is never negative. -/
theorem chiSquare_yates_correction_invariant :
    ∀ a b c d : ℚ, 0 ≤ a → 0 ≤ b → 0 ≤ c → 0 ≤ d →
      chiSquare_correctedNum a b c d true ≤ chiSquare_correctedNum a b c d false ∧
      0 ≤ chiSquare_correctedNum a b c d true := by
  intro a b c d ha hb hc hd
  simp only [chiSquare_correctedNum, if_true, Bool.false_eq_true, if_false]
  constructor
  · exact max_le (abs_nonneg _) (by linarith [abs_nonneg (a * d - b * c)])
  · exact le_max_left 0 _

/-- Witness for C7 at `a=10, b=20, c=30, d=40`. -/
theorem chiSquare_yates_correction_invariant_witness :
    (0 : ℚ) ≤ 10 ∧
    chiSquare_correctedNum 10 20 30 40 true ≤ chiSquare_correctedNum 10 20 30 40 false ∧
    0 ≤ chiSquare_correctedNum 10 20 30 40 true :=
  ⟨by norm_num,
   chiSquare_yates_correction_invariant 10 20 30 40 (by norm_num) (by norm_num)
     (by norm_num) (by norm_num)⟩

/-- Claim C8: with all row and column sums positive the chi-square statistic
is non-negative (for either value of `yates`), and without the Yates
correction it is zero exactly when `a*d = b*c`. -/
theorem chiSquare_nonneg_and_zero_iff :
    ∀ a b c d : ℚ, 0 ≤ a → 0 ≤ b → 0 ≤ c → 0 ≤ d →
      0 < a + b → 0 < c + d → 0 < a + c → 0 < b + d →
      (∀ yates, 0 ≤ chiSquare_chi2 a b c d yates) ∧
      (chiSquare_chi2 a b c d false = 0 ↔ a * d = b * c) := by
  intro a b c d ha hb hc hd h1 h2 h3 h4
  have hD : 0 < (a + b) * (c + d) * (a + c) * (b + d) := by positivity
  have hn : 0 < a + b + c + d := by linarith
  constructor
  · intro yates
    simp only [chiSquare_chi2]
    exact div_nonneg (mul_nonneg hn.le (sq_nonneg _)) hD.le
  · simp only [chiSquare_chi2, chiSquare_correctedNum, Bool.false_eq_true, if_false]
    constructor
    · intro h
      rcases div_eq_zero_iff.mp h with h5 | h5
      · rcases mul_eq_zero.mp h5 with h6 | h6
        · exact absurd h6 hn.ne'
        · have h7 : a * d - b * c = 0 := abs_eq_zero.mp (sq_eq_zero_iff.mp h6)
          linarith
      · exact absurd h5 hD.ne'
    · intro h
      have h5 : |a * d - b * c| = 0 := by rw [sub_eq_zero.mpr h, abs_zero]
      rw [h5]
      norm_num

/-- Witness for C8 at `a=10, b=20, c=30, d=40`. -/
theorem chiSquare_nonneg_and_zero_iff_witness :
    (0 : ℚ) < 10 + 20 ∧
    (∀ yates, 0 ≤ chiSquare_chi2 10 20 30 40 yates) ∧
    (chiSquare_chi2 10 20 30 40 false = 0 ↔ (10 : ℚ) * 40 = 20 * 30) :=
  ⟨by norm_num,
   chiSquare_nonneg_and_zero_iff 10 20 30 40 (by norm_num) (by norm_num) (by norm_num)
     (by norm_num) (by norm_num) (by norm_num) (by norm_num) (by norm_num)⟩

/-- Claim C9: the odds-ratio point estimate equals `(a*d)/(b*c)` wherever it
is computed: `epiMeasures.compute` computes `or = (a*d)/(b*c)` and
`ciEpi.compute` computes the same value as `orPoint` whenever `b` and `c`
are both nonzero; in particular at `a=70, b=30, c=40, d=60` the odds ratio
equals exactly `3.5 = 7/2`. -/
theorem oddsRatio_point_estimate :
    (∀ a b c d : ℚ, b * c ≠ 0 → epiMeasures_or a b c d = .fin ((a * d) / (b * c))) ∧
    (∀ a b c d : ℝ, b ≠ 0 → c ≠ 0 → ciEpi_orPoint a b c d = .fin ((a * d) / (b * c))) ∧
    epiMeasures_or 70 30 40 60 = .fin (7 / 2) := by
  refine ⟨fun a b c d h => ?_, fun a b c d hb hc => ?_, ?_⟩
  · simp [epiMeasures_or, JSNum.div, JSNum.toNum, h]
  · rw [ciEpi_orPoint, if_pos ⟨hb, hc⟩]
  · have h : ((30 : ℚ) * 40) ≠ 0 := by norm_num
    have h2 : epiMeasures_or 70 30 40 60 = .fin ((70 * 60 : ℚ) / (30 * 40)) := by
      simp [epiMeasures_or, JSNum.div, JSNum.toNum, h]
    rw [h2]
    simp only [JSNum.fin.injEq]
    norm_num

/-- Witness for C9 at `a=70, b=30, c=40, d=60`. -/
theorem oddsRatio_point_estimate_witness :
    ((30 : ℚ) * 40 ≠ 0 ∧ epiMeasures_or 70 30 40 60 = .fin ((70 * 60 : ℚ) / (30 * 40))) ∧
    ((2 : ℝ) ≠ 0 ∧ ciEpi_orPoint 3 2 2 3 = .fin ((3 * 3 : ℝ) / (2 * 2))) :=
  ⟨⟨by norm_num, oddsRatio_point_estimate.1 70 30 40 60 (by norm_num)⟩,
   ⟨by norm_num, oddsRatio_point_estimate.2.1 3 2 2 3 (by norm_num) (by norm_num)⟩⟩

/-- Claim C10: in the part_001 variant calculators the compute bodies read
the absent fields `a,b,c,d`, so for every input of the declared shape the
"Exposed Risk"/"Unexposed Risk" entries of `riskRatioCalc` and the
"Exposed Odds"/"Unexposed Odds" entries of `oddsRatioCalc` are renderings
of `NaN` (undefined-field arithmetic) — independent of the supplied counts
and of the external helpers. -/
theorem part001_entries_render_NaN :
    ∀ (computeRR computeOR : EpiNamedInput → FormulaRes)
      (formatPercent : JSNum → String) (formatCI : JSNum → JSNum → ℕ → String)
      (data : EpiNamedInput),
      (riskRatioCalc_compute computeRR formatPercent formatCI data).results.get? 2 =
        some ⟨"Exposed Risk", .str (formatPercent .nan), false⟩ ∧
      (riskRatioCalc_compute computeRR formatPercent formatCI data).results.get? 3 =
        some ⟨"Unexposed Risk", .str (formatPercent .nan), false⟩ ∧
      (oddsRatioCalc_compute computeOR formatCI data).results.get? 2 =
        some ⟨"Exposed Odds", .str "NaN", false⟩ ∧
      (oddsRatioCalc_compute computeOR formatCI data).results.get? 3 =
        some ⟨"Unexposed Odds", .str "NaN", false⟩ := by
  intro computeRR computeOR formatPercent formatCI data
  exact ⟨rfl, rfl, rfl, rfl⟩

/-- Counterexample to C6 as stated: at `a=1, b=0, c=1, d=1` the odds-ratio
denominator `b*c` is zero, and `epiMeasures.compute` renders the resulting
`Infinity` through `toFixed(3)` as the string `"Infinity"` — not as `"∞"`
as the claim asserts. -/
theorem epiMeasures_renders_Infinity :
    (epiMeasures_compute 1 0 1 1).results.get? 1 =
      some ⟨"Odds Ratio (OR)", .str "Infinity", true⟩ ∧
    ("Infinity" : String) ≠ "∞" := by
  constructor
  · have hor : epiMeasures_or 1 0 1 1 = .inf := by
      have h1 : ((0 : ℚ) * 1) = 0 := by norm_num
      have h2 : (0 : ℚ) < 1 * 1 := by norm_num
      simp [epiMeasures_or, JSNum.div, JSNum.toNum, h1, h2]
    simp [epiMeasures_compute, hor, JSNum.toFixed]
  · decide

/-- Claim C6 as amended: zero denominators in the ratio calculators do not
raise; the degenerate value is `Infinity`, and the `ciEpi` toolkit formats
every non-finite value as `"∞"`, while `epiMeasures` renders the `Infinity`
produced by a zero denominator through `toFixed` as the string
`"Infinity"` (not `"∞"`). -/
theorem epi_degenerate_no_raise :
    (∀ (a b c d : ℝ) (render : ℝ → String),
        b = 0 ∨ c = 0 → ciEpi_f render (ciEpi_orPoint a b c d) = "∞") ∧
    (∀ a b c d : ℚ, 0 < a * d → b * c = 0 →
        (epiMeasures_compute a b c d).results.get? 1 =
          some ⟨"Odds Ratio (OR)", .str "Infinity", true⟩) := by
  constructor
  · intro a b c d render h
    have hpt : ciEpi_orPoint a b c d = .inf := by
      rw [ciEpi_orPoint, if_neg]
      tauto
    rw [hpt]
    rfl
  · intro a b c d had hbc
    have hor : epiMeasures_or a b c d = .inf := by
      simp [epiMeasures_or, JSNum.div, JSNum.toNum, hbc, had]
    simp [epiMeasures_compute, hor, JSNum.toFixed]

/-- Witness for the amended C6 at `b=0` (ciEpi) and `a=1,b=0,c=1,d=1`
(epiMeasures). -/
theorem epi_degenerate_no_raise_witness :
    ciEpi_f renderSample (ciEpi_orPoint 1 0 1 1) = "∞" ∧
    (epiMeasures_compute 1 0 1 1).results.get? 1 =
      some ⟨"Odds Ratio (OR)", .str "Infinity", true⟩ :=
  ⟨epi_degenerate_no_raise.1 1 0 1 1 renderSample (Or.inl rfl),
   epi_degenerate_no_raise.2 1 0 1 1 (by norm_num) (by norm_num)⟩

/-- Claim C5: the log-scale p-value helper `getLogP` of `ciEpi.compute`
returns exactly `1` whenever its point-estimate argument is `≤ 0` or
non-finite — for every distribution utility `tP`, i.e. without consulting
it — and only for a finite positive estimate does it return the two-sided
p-value of `|ln(est)| / seLog` at 1000 degrees of freedom. -/
theorem ciEpi_getLogP_spec :
    ∀ (tP : ℝ → ℝ → TPRes) (seLog : ℝ),
      (∀ x : ℝ, x ≤ 0 → ciEpi_getLogP tP (.fin x) seLog = 1) ∧
      ciEpi_getLogP tP .inf seLog = 1 ∧
      ciEpi_getLogP tP .negInf seLog = 1 ∧
      ciEpi_getLogP tP .nan seLog = 1 ∧
      (∀ x : ℝ, 0 < x →
        ciEpi_getLogP tP (.fin x) seLog = (tP (|Real.log x| / seLog) 1000).twoSided) := by
  intro tP seLog
  refine ⟨fun x hx => ?_, rfl, rfl, rfl, fun x hx => ?_⟩
  · rw [ciEpi_getLogP, if_pos hx]
  · rw [ciEpi_getLogP, if_neg (not_le.mpr hx)]

/-- Witness for C5 with a sample distribution utility, at `est = -1` and at
`est = Infinity`. -/
theorem ciEpi_getLogP_spec_witness :
    (-1 : ℝ) ≤ 0 ∧ ciEpi_getLogP tPSample (.fin (-1)) 1 = 1 ∧
    ciEpi_getLogP tPSample .inf 1 = 1 :=
  ⟨by norm_num, (ciEpi_getLogP_spec tPSample 1).1 (-1) (by norm_num),
   (ciEpi_getLogP_spec tPSample 1).2.1⟩

/-- Claim C4: in `ciEpi.compute` the "exact-like" OR interval falls back to
the Woolf continuity-corrected bounds exactly when some raw cell is zero;
the exact formula from uncorrected counts is used only when all four raw
cells are nonzero. -/
theorem ciEpi_exact_fallback :
    ∀ a b c d z : ℝ,
      ((a = 0 ∨ b = 0 ∨ c = 0 ∨ d = 0) →
        ciEpi_exactLower a b c d z = ciEpi_woolfLower a b c d z ∧
        ciEpi_exactUpper a b c d z = ciEpi_woolfUpper a b c d z) ∧
      (a ≠ 0 → b ≠ 0 → c ≠ 0 → d ≠ 0 →
        ciEpi_exactLower a b c d z =
          ((a * d) / (b * c)) / Real.exp (z * ciEpi_seExact a b c d) ∧
        ciEpi_exactUpper a b c d z =
          ((a * d) / (b * c)) * Real.exp (z * ciEpi_seExact a b c d)) := by
  intro a b c d z
  constructor
  · intro h
    have hcond : ¬(a ≠ 0 ∧ d ≠ 0 ∧ b ≠ 0 ∧ c ≠ 0) := by tauto
    exact ⟨by rw [ciEpi_exactLower, if_neg hcond], by rw [ciEpi_exactUpper, if_neg hcond]⟩
  · intro ha hb hc hd
    have hcond : a ≠ 0 ∧ d ≠ 0 ∧ b ≠ 0 ∧ c ≠ 0 := ⟨ha, hd, hb, hc⟩
    exact ⟨by rw [ciEpi_exactLower, if_pos hcond], by rw [ciEpi_exactUpper, if_pos hcond]⟩

/-- Witness for C4 at the zero-cell input `a=0, b=1, c=1, d=1` with `z=2`. -/
theorem ciEpi_exact_fallback_witness :
    ((0 : ℝ) = 0 ∨ (1 : ℝ) = 0 ∨ (1 : ℝ) = 0 ∨ (1 : ℝ) = 0) ∧
    ciEpi_exactLower 0 1 1 1 2 = ciEpi_woolfLower 0 1 1 1 2 ∧
    ciEpi_exactUpper 0 1 1 1 2 = ciEpi_woolfUpper 0 1 1 1 2 :=
  ⟨Or.inl rfl, (ciEpi_exact_fallback 0 1 1 1 2).1 (Or.inl rfl)⟩

/-- Helper: a log-scale interval's lower bound `exp(log v - t)` lies below
its centre `v` for `v > 0` and a non-negative half-width `t`. -/
theorem exp_log_sub_le_center (v t : ℝ) (hv : 0 < v) (ht : 0 ≤ t) :
    Real.exp (Real.log v - t) ≤ v := by
  rw [Real.exp_sub, Real.exp_log hv]
  exact div_le_self hv.le (Real.one_le_exp ht)

/-- Helper: a log-scale interval's upper bound `exp(log v + t)` lies above
its centre `v` for `v > 0` and a non-negative half-width `t`. -/
theorem center_le_exp_log_add (v t : ℝ) (hv : 0 < v) (ht : 0 ≤ t) :
    v ≤ Real.exp (Real.log v + t) := by
  rw [Real.exp_add, Real.exp_log hv]
  exact le_mul_of_one_le_right hv.le (Real.one_le_exp ht)

/-- Counterexample to C3 as stated: at `a=4, b=1, c=1, d=1` (all cells
positive) with the positive critical value `zCrit = 1/10`, the Woolf
interval's upper bound lies strictly below the point odds ratio
`orPoint = 4`, so the Woolf interval does not bracket `orPoint`. -/
theorem ciEpi_woolf_not_bracket_orPoint :
    ciEpi_orPoint 4 1 1 1 = .fin 4 ∧
    (0 : ℝ) < 1 / 10 ∧
    ciEpi_woolfUpper 4 1 1 1 (1 / 10) < 4 := by
  refine ⟨?_, by norm_num, ?_⟩
  · rw [ciEpi_orPoint, if_pos ⟨one_ne_zero, one_ne_zero⟩]
    norm_num
  · have hoc : ciEpi_orCorrected 4 1 1 1 = 3 := by
      rw [ciEpi_orCorrected]; norm_num
    have hsum : (1 / ((4 : ℝ) + 0.5) + 1 / (1 + 0.5) + 1 / (1 + 0.5) + 1 / (1 + 0.5)) = 20 / 9 := by
      norm_num
    have hse : ciEpi_seLogOrWoolf 4 1 1 1 ≤ 3 / 2 := by
      rw [ciEpi_seLogOrWoolf, hsum]
      calc Real.sqrt (20 / 9) ≤ Real.sqrt ((3 / 2) ^ 2) := Real.sqrt_le_sqrt (by norm_num)
        _ = 3 / 2 := Real.sqrt_sq (by norm_num)
    have hse0 : 0 ≤ ciEpi_seLogOrWoolf 4 1 1 1 := by
      rw [ciEpi_seLogOrWoolf]; exact Real.sqrt_nonneg _
    rw [ciEpi_woolfUpper, hoc]
    set t := (1 / 10 : ℝ) * ciEpi_seLogOrWoolf 4 1 1 1 with ht
    have ht1 : t ≤ 3 / 20 := by rw [ht]; linarith
    have ht0 : 0 ≤ t := by rw [ht]; positivity
    rw [Real.exp_add, Real.exp_log (by norm_num : (0 : ℝ) < 3)]
    have hE : Real.exp t * (1 - t) ≤ 1 := by
      have h2 : 1 - t ≤ Real.exp (-t) := by
        have := Real.add_one_le_exp (-t)
        linarith
      calc Real.exp t * (1 - t) ≤ Real.exp t * Real.exp (-t) :=
            mul_le_mul_of_nonneg_left h2 (Real.exp_nonneg t)
        _ = 1 := by rw [← Real.exp_add]; simp
    have hEt : Real.exp t * t ≤ Real.exp t * (3 / 20) :=
      mul_le_mul_of_nonneg_left ht1 (Real.exp_nonneg t)
    nlinarith [Real.exp_pos t]

/-- Claim C3 as amended: for all-positive cells and a positive critical
value, each interval of `ciEpi.compute` brackets its own centre: the
"exact-like" interval brackets the point odds ratio `orPoint`, the Katz
interval brackets the computed RR, and the Woolf interval brackets the
continuity-corrected odds ratio `orCorrected` (its centre) — but not
necessarily `orPoint`. -/
theorem ciEpi_intervals_bracket_centers :
    ∀ a b c d z : ℝ, 0 < a → 0 < b → 0 < c → 0 < d → 0 < z →
      (ciEpi_orPoint a b c d = .fin ((a * d) / (b * c)) ∧
        ciEpi_exactLower a b c d z ≤ (a * d) / (b * c) ∧
        (a * d) / (b * c) ≤ ciEpi_exactUpper a b c d z) ∧
      (ciEpi_woolfLower a b c d z ≤ ciEpi_orCorrected a b c d ∧
        ciEpi_orCorrected a b c d ≤ ciEpi_woolfUpper a b c d z) ∧
      (ciEpi_rr a b c d = .fin (ciEpi_r1 a b / ciEpi_r2 c d) ∧
        ciEpi_rrLower a b c d z ≤ ciEpi_r1 a b / ciEpi_r2 c d ∧
        ciEpi_rrUpper a b c d z =
          .fin (Real.exp (Real.log (ciEpi_r1 a b / ciEpi_r2 c d) +
            z * ciEpi_rrSELog a b c d)) ∧
        ciEpi_r1 a b / ciEpi_r2 c d ≤
          Real.exp (Real.log (ciEpi_r1 a b / ciEpi_r2 c d) +
            z * ciEpi_rrSELog a b c d)) := by
  intro a b c d z ha hb hc hd hz
  have hv : 0 < (a * d) / (b * c) := div_pos (mul_pos ha hd) (mul_pos hb hc)
  have htExact : 0 ≤ z * ciEpi_seExact a b c d := by
    rw [ciEpi_seExact]; positivity
  have htWoolf : 0 ≤ z * ciEpi_seLogOrWoolf a b c d := by
    rw [ciEpi_seLogOrWoolf]; positivity
  have htKatz : 0 ≤ z * ciEpi_rrSELog a b c d := by
    rw [ciEpi_rrSELog]; positivity
  have hoc : 0 < ciEpi_orCorrected a b c d := by
    rw [ciEpi_orCorrected]
    have h05 : (0.5 : ℝ) = 1 / 2 := by norm_num
    rw [h05]
    have h1 : 0 < a + 1 / 2 := by linarith
    have h2 : 0 < b + 1 / 2 := by linarith
    have h3 : 0 < c + 1 / 2 := by linarith
    have h4 : 0 < d + 1 / 2 := by linarith
    positivity
  have hr1 : 0 < ciEpi_r1 a b := by
    rw [ciEpi_r1]
    have h1 : 0 < a + b := by linarith
    positivity
  have hr2 : 0 < ciEpi_r2 c d := by
    rw [ciEpi_r2]
    have h1 : 0 < c + d := by linarith
    positivity
  have hrrv : 0 < ciEpi_r1 a b / ciEpi_r2 c d := div_pos hr1 hr2
  have hrr : ciEpi_rr a b c d = .fin (ciEpi_r1 a b / ciEpi_r2 c d) := by
    rw [ciEpi_rr, if_neg hr2.ne']
  refine ⟨⟨?_, ?_, ?_⟩, ⟨?_, ?_⟩, hrr, ?_, ?_, ?_⟩
  · rw [ciEpi_orPoint, if_pos ⟨hb.ne', hc.ne'⟩]
  · rw [ciEpi_exactLower, if_pos ⟨ha.ne', hd.ne', hb.ne', hc.ne'⟩]
    exact div_le_self hv.le (Real.one_le_exp htExact)
  · rw [ciEpi_exactUpper, if_pos ⟨ha.ne', hd.ne', hb.ne', hc.ne'⟩]
    exact le_mul_of_one_le_right hv.le (Real.one_le_exp htExact)
  · rw [ciEpi_woolfLower]
    exact exp_log_sub_le_center _ _ hoc htWoolf
  · rw [ciEpi_woolfUpper]
    exact center_le_exp_log_add _ _ hoc htWoolf
  · simp only [ciEpi_rrLower, hrr]
    rw [if_pos hrrv]
    exact exp_log_sub_le_center _ _ hrrv htKatz
  · simp only [ciEpi_rrUpper, hrr]
    rw [if_pos hrrv]
  · exact center_le_exp_log_add _ _ hrrv htKatz

/-- Witness for the amended C3 at `a=b=c=d=1`, `z=2`. -/
theorem ciEpi_intervals_bracket_centers_witness :
    (0 : ℝ) < 1 ∧ (0 : ℝ) < 2 ∧
    ciEpi_exactLower 1 1 1 1 2 ≤ (1 * 1 : ℝ) / (1 * 1) ∧
    ciEpi_woolfLower 1 1 1 1 2 ≤ ciEpi_orCorrected 1 1 1 1 :=
  ⟨by norm_num, by norm_num,
   (ciEpi_intervals_bracket_centers 1 1 1 1 2 (by norm_num) (by norm_num) (by norm_num)
      (by norm_num) (by norm_num)).1.2.1,
   (ciEpi_intervals_bracket_centers 1 1 1 1 2 (by norm_num) (by norm_num) (by norm_num)
      (by norm_num) (by norm_num)).2.1.1⟩
